import Mathlib

/-!
Verification of the pygmt grdlandmask wrapper (src/pygmt/src/grdlandmask.py).

The wrapper is modelled as a deterministic function over
- the keyword arguments, an association list from option keys ("I", "R",
  "G", ...) to Python values (None or a string), and
- an environment supplying the behaviour of the external collaborators:
  the name the temporary-file helper generates, the result of the module
  dispatcher call, and the result of opening the produced grid file.

The function returns the trace of external effects it performs, in order,
together with its outcome (a normal return of None or of a DataArray, the
invalid-input error raised by the wrapper, or a propagated external error).
-/

namespace PyGMT

/-- A Python value appearing as a keyword-argument value: None or a string. -/
inductive PyVal
  | none
  | str (s : String)
deriving DecidableEq, BEq

/-- Keyword arguments: an association list with the dict key order. -/
abbrev Kwargs := List (String × PyVal)

/-- Dictionary lookup, first matching key. -/
def Kwargs.get : Kwargs → String → Option PyVal
  | [], _ => Option.none
  | (k0, v0) :: rest, k => if k0 == k then some v0 else Kwargs.get rest k

/-- Membership test of a key, as in Python "k in kwargs.keys()". -/
def Kwargs.hasKey (kw : Kwargs) (k : String) : Bool :=
  (Kwargs.get kw k).isSome

/-- Python dict.update with a single key: replace the value in place when
the key is present, append the pair otherwise. -/
def Kwargs.updateOne : Kwargs → String → PyVal → Kwargs
  | [], k, v => [(k, v)]
  | (k0, v0) :: rest, k, v =>
      if k0 == k then (k0, v) :: rest
      else (k0, v0) :: Kwargs.updateOne rest k v

/-- String content of a Python value; the empty string stands for None and
is never consulted on the paths where the wrapper reads it. -/
def pyStr : PyVal → String
  | PyVal.none => ""
  | PyVal.str s => s

/-- Python equality between a possibly-None value and a string: None
compares unequal to every string. -/
def pyEq : PyVal → String → Bool
  | PyVal.none, _ => false
  | PyVal.str s, t => s == t

/-- Command-line tokens for the argument string, one per non-None option. -/
def argTokens (kwargs : Kwargs) : List String :=
  (kwargs.filter (fun p => p.2 != PyVal.none)).map
    (fun p => "-" ++ p.1 ++ pyStr p.2)

/-- Modelled from the spec: the helper build_arg_string of pygmt.helpers is
not among the provided sources; the spec states that the wrapper "converts
keyword arguments into a command-line-style argument string". Each option
key with a non-None value becomes a dash-prefixed token carrying its value,
and the tokens are joined with blanks. -/
def build_arg_string (kwargs : Kwargs) : String :=
  String.intercalate " " (argTokens kwargs)

/-- An in-memory grid handle produced by the array library; the loaded flag
records whether dataarray.load() has pulled the data into memory. -/
structure DataArray where
  path : String
  loaded : Bool
deriving DecidableEq

/-- Behaviour of the external collaborators for one call: the generated
temporary-file name, the dispatcher result (some message models a raised
library error), and the grid-file open result. -/
structure Env where
  tmpName : String
  callModule : String → String → Option String
  openDataArray : String → Except String DataArray

/-- One observable external effect of a run of the wrapper. -/
inductive Event
  | acquireTemp (name : String)
  | openSession
  | callModule (module arg : String)
  | closeSession
  | openGrid (path : String)
  | loadGrid (path : String)
  | closeGrid (path : String)
  | releaseTemp (name : String)
deriving DecidableEq

/-- Outcome of a run: a normal return (None or a DataArray), the
invalid-input error raised locally, or a propagated external error. -/
inductive Outcome
  | ret (r : Option DataArray)
  | invalidInput (msg : String)
  | externalError (msg : String)
deriving DecidableEq

/-- The message of the single local validation error. -/
def invalidMsg : String := "Both 'region' and 'spacing' must be specified."

/-- The keyword arguments after the default-outgrid step: when the key "G"
is absent it is bound to the temporary-file name, otherwise the dict is
unchanged (kwargs.update on line 84, guarded by line 83). -/
def effKwargs (env : Env) (kwargs : Kwargs) : Kwargs :=
  if Kwargs.hasKey kwargs "G" then kwargs
  else Kwargs.updateOne kwargs "G" (PyVal.str env.tmpName)

/-- The value read back as outgrid = kwargs["G"] on line 85; after
effKwargs the key is always present, so the None default never fires. -/
def outgridVal (env : Env) (kwargs : Kwargs) : PyVal :=
  (Kwargs.get (effKwargs env kwargs) "G").getD PyVal.none

/-- Body of grdlandmask after validation (lines 81-96): acquire the
temporary file, open a session, default the outgrid, build the argument
string, dispatch, close the session, then either load and return the grid
or return None; the temporary file is released on every path, also when an
external call raises. -/
def grdlandmaskBody (env : Env) (kwargs : Kwargs) : List Event × Outcome :=
  match env.callModule "grdlandmask" (build_arg_string (effKwargs env kwargs)) with
  | some e =>
      ([Event.acquireTemp env.tmpName, Event.openSession,
        Event.callModule "grdlandmask" (build_arg_string (effKwargs env kwargs)),
        Event.closeSession, Event.releaseTemp env.tmpName],
       Outcome.externalError e)
  | Option.none =>
      if pyEq (outgridVal env kwargs) env.tmpName then
        match env.openDataArray (pyStr (outgridVal env kwargs)) with
        | Except.error e =>
            ([Event.acquireTemp env.tmpName, Event.openSession,
              Event.callModule "grdlandmask" (build_arg_string (effKwargs env kwargs)),
              Event.closeSession, Event.openGrid (pyStr (outgridVal env kwargs)),
              Event.releaseTemp env.tmpName],
             Outcome.externalError e)
        | Except.ok da =>
            ([Event.acquireTemp env.tmpName, Event.openSession,
              Event.callModule "grdlandmask" (build_arg_string (effKwargs env kwargs)),
              Event.closeSession, Event.openGrid (pyStr (outgridVal env kwargs)),
              Event.loadGrid (pyStr (outgridVal env kwargs)),
              Event.closeGrid (pyStr (outgridVal env kwargs)),
              Event.releaseTemp env.tmpName],
             Outcome.ret (some { da with loaded := true }))
      else
        ([Event.acquireTemp env.tmpName, Event.openSession,
          Event.callModule "grdlandmask" (build_arg_string (effKwargs env kwargs)),
          Event.closeSession, Event.releaseTemp env.tmpName],
         Outcome.ret Option.none)

/-- The grdlandmask wrapper (lines 78-96): raise GMTInvalidInput when the
key "I" or the key "R" is absent, otherwise run the body. -/
def grdlandmask (env : Env) (kwargs : Kwargs) : List Event × Outcome :=
  if !(Kwargs.hasKey kwargs "I") || !(Kwargs.hasKey kwargs "R") then
    ([], Outcome.invalidInput invalidMsg)
  else grdlandmaskBody env kwargs

/-- Concrete well-behaved environment: the dispatcher succeeds and the grid
file opens as an unloaded DataArray at the requested path. -/
def envOK : Env where
  tmpName := "pygmt-tmp.nc"
  callModule := fun _ _ => Option.none
  openDataArray := fun p => Except.ok { path := p, loaded := false }

/-- Concrete environment whose dispatcher call raises a library error. -/
def envCallFail : Env where
  tmpName := "pygmt-tmp.nc"
  callModule := fun _ _ => some "GMTCLibError: module failed"
  openDataArray := fun p => Except.ok { path := p, loaded := false }

/-- Concrete environment whose grid-file open raises. -/
def envOpenFail : Env where
  tmpName := "pygmt-tmp.nc"
  callModule := fun _ _ => Option.none
  openDataArray := fun _ => Except.error "FileNotFoundError"

theorem Kwargs.get_updateOne_self (kw : Kwargs) (k : String) (v : PyVal) :
    Kwargs.get (Kwargs.updateOne kw k v) k = some v := by
  induction kw with
  | nil => simp [Kwargs.updateOne, Kwargs.get]
  | cons p rest ih =>
    obtain ⟨k0, v0⟩ := p
    cases h : (k0 == k) <;>
      simp [Kwargs.updateOne, Kwargs.get, h, ih]

theorem Kwargs.mem_of_get_eq_some (kw : Kwargs) (k : String) (v : PyVal)
    (h : Kwargs.get kw k = some v) : (k, v) ∈ kw := by
  induction kw with
  | nil => simp [Kwargs.get] at h
  | cons p rest ih =>
    obtain ⟨k0, v0⟩ := p
    cases hk : (k0 == k) with
    | false =>
        simp only [Kwargs.get, hk] at h
        exact List.mem_cons_of_mem _ (ih (by simpa using h))
    | true =>
        simp only [Kwargs.get, hk, if_pos] at h
        obtain rfl : v0 = v := by simpa using h
        obtain rfl : k0 = k := eq_of_beq hk
        exact List.mem_cons_self _ _

theorem mem_argTokens_of_mem (kw : Kwargs) (k : String) (v : PyVal)
    (hmem : (k, v) ∈ kw) (hv : v ≠ PyVal.none) :
    ("-" ++ k ++ pyStr v) ∈ argTokens kw := by
  unfold argTokens
  have hfil : (k, v) ∈ kw.filter (fun p => p.2 != PyVal.none) := by
    apply List.mem_filter.mpr
    refine ⟨hmem, ?_⟩
    cases v with
    | none => exact absurd rfl hv
    | str s => rfl
  exact List.mem_map_of_mem _ hfil

theorem body_ne_invalid (env : Env) (kw : Kwargs) (m : String) :
    (grdlandmaskBody env kw).2 ≠ Outcome.invalidInput m := by
  unfold grdlandmaskBody
  split
  · simp
  · split
    · split <;> simp
    · simp

/-- C1: grdlandmask raises the invalid-input error exactly when the key "I"
or the key "R" is absent from the keyword arguments. -/
theorem grdlandmask_invalid_iff_missing (env : Env) (kw : Kwargs) :
    (∃ m, (grdlandmask env kw).2 = Outcome.invalidInput m) ↔
      (Kwargs.hasKey kw "I" = false ∨ Kwargs.hasKey kw "R" = false) := by
  unfold grdlandmask
  split
  · rename_i h
    simp only [Bool.or_eq_true, Bool.not_eq_true'] at h
    exact ⟨fun _ => h, fun _ => ⟨invalidMsg, rfl⟩⟩
  · rename_i h
    simp only [Bool.or_eq_true, Bool.not_eq_true'] at h
    constructor
    · rintro ⟨m, hm⟩
      exact absurd hm (body_ne_invalid env kw m)
    · intro hc
      exact absurd hc h

/-- C5: when the key "I" or the key "R" is missing, the wrapper raises the
invalid-input error with an empty effect trace: no temporary file, session
or library call happens on the error path. -/
theorem grdlandmask_invalid_no_effects (env : Env) (kw : Kwargs)
    (h : Kwargs.hasKey kw "I" = false ∨ Kwargs.hasKey kw "R" = false) :
    grdlandmask env kw = ([], Outcome.invalidInput invalidMsg) := by
  unfold grdlandmask
  split
  · rfl
  · rename_i hc
    simp only [Bool.or_eq_true, Bool.not_eq_true'] at hc
    exact absurd h hc

theorem grdlandmask_invalid_no_effects_witness :
    (Kwargs.hasKey [("R", PyVal.str "0/1/0/1")] "I" = false ∨
      Kwargs.hasKey [("R", PyVal.str "0/1/0/1")] "R" = false) ∧
    grdlandmask envOK [("R", PyVal.str "0/1/0/1")] =
      ([], Outcome.invalidInput invalidMsg) :=
  ⟨Or.inl (by decide),
   grdlandmask_invalid_no_effects envOK _ (Or.inl (by decide))⟩

/-- Recognizer of dispatcher-call events in a trace. -/
def isCallEvent : Event → Bool
  | Event.callModule _ _ => true
  | _ => false

/-- Sample validated keyword arguments with no outgrid. -/
def kwA : Kwargs := [("I", PyVal.str "30m"), ("R", PyVal.str "0/10/0/10")]

/-- Sample keyword arguments whose required keys are bound to None. -/
def kwNone : Kwargs := [("I", PyVal.none), ("R", PyVal.none)]

theorem grdlandmask_validated (env : Env) (kw : Kwargs)
    (hI : Kwargs.hasKey kw "I" = true) (hR : Kwargs.hasKey kw "R" = true) :
    grdlandmask env kw = grdlandmaskBody env kw := by
  unfold grdlandmask
  rw [if_neg]
  simp [hI, hR]

/-- C3: on every validated call the effect trace contains exactly one
dispatcher call, whose module is "grdlandmask" and whose argument is the
string built by build_arg_string from the keyword arguments after the
default outgrid has been inserted when needed. -/
theorem grdlandmask_dispatch_once (env : Env) (kw : Kwargs)
    (hI : Kwargs.hasKey kw "I" = true) (hR : Kwargs.hasKey kw "R" = true) :
    (grdlandmask env kw).1.filter isCallEvent =
      [Event.callModule "grdlandmask" (build_arg_string (effKwargs env kw))] := by
  rw [grdlandmask_validated env kw hI hR]
  unfold grdlandmaskBody
  split
  · simp [List.filter, isCallEvent]
  · split
    · split <;> simp [List.filter, isCallEvent]
    · simp [List.filter, isCallEvent]

theorem grdlandmask_dispatch_once_witness :
    Kwargs.hasKey kwA "I" = true ∧ Kwargs.hasKey kwA "R" = true ∧
    (grdlandmask envOK kwA).1.filter isCallEvent =
      [Event.callModule "grdlandmask" (build_arg_string (effKwargs envOK kwA))] :=
  ⟨by decide, by decide,
   grdlandmask_dispatch_once envOK kwA (by decide) (by decide)⟩

/-- C4: when the key "G" is absent from a validated call, the wrapper binds
"G" to the temporary-file name before building the argument string, so the
dispatcher receives an argument string naming an output grid destination. -/
theorem grdlandmask_default_outgrid (env : Env) (kw : Kwargs)
    (hI : Kwargs.hasKey kw "I" = true) (hR : Kwargs.hasKey kw "R" = true)
    (hG : Kwargs.hasKey kw "G" = false) :
    Kwargs.get (effKwargs env kw) "G" = some (PyVal.str env.tmpName) ∧
    ("-" ++ "G" ++ env.tmpName) ∈ argTokens (effKwargs env kw) ∧
    Event.callModule "grdlandmask" (build_arg_string (effKwargs env kw)) ∈
      (grdlandmask env kw).1 := by
  have hget : Kwargs.get (effKwargs env kw) "G" = some (PyVal.str env.tmpName) := by
    unfold effKwargs
    rw [if_neg (by simp [hG])]
    exact Kwargs.get_updateOne_self kw "G" (PyVal.str env.tmpName)
  refine ⟨hget, ?_, ?_⟩
  · have hmem := Kwargs.mem_of_get_eq_some _ _ _ hget
    have htok := mem_argTokens_of_mem _ _ _ hmem (by simp)
    simpa [pyStr] using htok
  · rw [grdlandmask_validated env kw hI hR]
    unfold grdlandmaskBody
    split
    · simp
    · split
      · split <;> simp
      · simp

theorem grdlandmask_default_outgrid_witness :
    Kwargs.hasKey kwA "I" = true ∧ Kwargs.hasKey kwA "R" = true ∧
    Kwargs.hasKey kwA "G" = false ∧
    (Kwargs.get (effKwargs envOK kwA) "G" = some (PyVal.str envOK.tmpName) ∧
     ("-" ++ "G" ++ envOK.tmpName) ∈ argTokens (effKwargs envOK kwA) ∧
     Event.callModule "grdlandmask" (build_arg_string (effKwargs envOK kwA)) ∈
       (grdlandmask envOK kwA).1) :=
  ⟨by decide, by decide, by decide,
   grdlandmask_default_outgrid envOK kwA (by decide) (by decide) (by decide)⟩

/-- C6: on every validated call the temporary file is the first effect
acquired and the last effect released, on every path, including the path
where the user supplied the outgrid and the paths where an external call
raises. -/
theorem grdlandmask_temp_scoped (env : Env) (kw : Kwargs)
    (hI : Kwargs.hasKey kw "I" = true) (hR : Kwargs.hasKey kw "R" = true) :
    ∃ mid, (grdlandmask env kw).1 =
      Event.acquireTemp env.tmpName :: (mid ++ [Event.releaseTemp env.tmpName]) := by
  rw [grdlandmask_validated env kw hI hR]
  unfold grdlandmaskBody
  split
  · exact ⟨[Event.openSession,
      Event.callModule "grdlandmask" (build_arg_string (effKwargs env kw)),
      Event.closeSession], rfl⟩
  · split
    · split
      · exact ⟨[Event.openSession,
          Event.callModule "grdlandmask" (build_arg_string (effKwargs env kw)),
          Event.closeSession, Event.openGrid (pyStr (outgridVal env kw))], rfl⟩
      · exact ⟨[Event.openSession,
          Event.callModule "grdlandmask" (build_arg_string (effKwargs env kw)),
          Event.closeSession, Event.openGrid (pyStr (outgridVal env kw)),
          Event.loadGrid (pyStr (outgridVal env kw)),
          Event.closeGrid (pyStr (outgridVal env kw))], rfl⟩
    · exact ⟨[Event.openSession,
        Event.callModule "grdlandmask" (build_arg_string (effKwargs env kw)),
        Event.closeSession], rfl⟩

theorem grdlandmask_temp_scoped_witness :
    Kwargs.hasKey kwA "I" = true ∧ Kwargs.hasKey kwA "R" = true ∧
    ∃ mid, (grdlandmask envCallFail kwA).1 =
      Event.acquireTemp envCallFail.tmpName ::
        (mid ++ [Event.releaseTemp envCallFail.tmpName]) :=
  ⟨by decide, by decide,
   grdlandmask_temp_scoped envCallFail kwA (by decide) (by decide)⟩

/-- C7: a validated call never raises the invalid-input error, and every
external-error outcome carries exactly the message reported by the external
collaborator that failed: the dispatcher call or the grid-file open. -/
theorem grdlandmask_propagates_external (env : Env) (kw : Kwargs)
    (hI : Kwargs.hasKey kw "I" = true) (hR : Kwargs.hasKey kw "R" = true) :
    (∀ m, (grdlandmask env kw).2 ≠ Outcome.invalidInput m) ∧
    (∀ e, (grdlandmask env kw).2 = Outcome.externalError e →
      env.callModule "grdlandmask" (build_arg_string (effKwargs env kw)) = some e ∨
      env.openDataArray (pyStr (outgridVal env kw)) = Except.error e) := by
  rw [grdlandmask_validated env kw hI hR]
  refine ⟨fun m => body_ne_invalid env kw m, ?_⟩
  intro e he
  unfold grdlandmaskBody at he
  split at he
  · rename_i msg hcall
    left
    obtain rfl : msg = e := by simpa using he
    exact hcall
  · split at he
    · split at he
      · rename_i msg hopen
        right
        obtain rfl : msg = e := by simpa using he
        exact hopen
      · simp at he
    · simp at he

theorem grdlandmask_propagates_external_witness :
    Kwargs.hasKey kwA "I" = true ∧ Kwargs.hasKey kwA "R" = true ∧
    ((∀ m, (grdlandmask envCallFail kwA).2 ≠ Outcome.invalidInput m) ∧
     (∀ e, (grdlandmask envCallFail kwA).2 = Outcome.externalError e →
       envCallFail.callModule "grdlandmask"
         (build_arg_string (effKwargs envCallFail kwA)) = some e ∨
       envCallFail.openDataArray (pyStr (outgridVal envCallFail kwA)) =
         Except.error e)) :=
  ⟨by decide, by decide,
   grdlandmask_propagates_external envCallFail kwA (by decide) (by decide)⟩

/-- C8: the validation looks only at key presence: whenever both "I" and
"R" are present, whatever their values, even None, no invalid-input error
occurs and execution reaches the dispatcher call. -/
theorem grdlandmask_presence_only (env : Env) (kw : Kwargs)
    (hI : Kwargs.hasKey kw "I" = true) (hR : Kwargs.hasKey kw "R" = true) :
    (∀ m, (grdlandmask env kw).2 ≠ Outcome.invalidInput m) ∧
    (∃ a, Event.callModule "grdlandmask" a ∈ (grdlandmask env kw).1) := by
  rw [grdlandmask_validated env kw hI hR]
  refine ⟨fun m => body_ne_invalid env kw m,
    ⟨build_arg_string (effKwargs env kw), ?_⟩⟩
  unfold grdlandmaskBody
  split
  · simp
  · split
    · split <;> simp
    · simp

theorem grdlandmask_presence_only_witness :
    Kwargs.hasKey kwNone "I" = true ∧ Kwargs.hasKey kwNone "R" = true ∧
    ((∀ m, (grdlandmask envOK kwNone).2 ≠ Outcome.invalidInput m) ∧
     (∃ a, Event.callModule "grdlandmask" a ∈ (grdlandmask envOK kwNone).1)) :=
  ⟨by decide, by decide,
   grdlandmask_presence_only envOK kwNone (by decide) (by decide)⟩

/-- Sample validated keyword arguments whose outgrid value coincides with
the temporary-file name that envOK generates. -/
def kwG : Kwargs :=
  [("I", PyVal.str "30m"), ("R", PyVal.str "0/10/0/10"),
   ("G", PyVal.str "pygmt-tmp.nc")]

/-- Sample validated keyword arguments whose outgrid value is None. -/
def kwGNone : Kwargs :=
  [("I", PyVal.str "30m"), ("R", PyVal.str "0/10/0/10"), ("G", PyVal.none)]

/-- C2 counterexample: a validated call with the outgrid option set (here
to a string equal to the generated temporary-file name) returns a
DataArray, not None. -/
theorem grdlandmask_outgrid_set_returns_dataarray :
    Kwargs.hasKey kwG "G" = true ∧
    Kwargs.hasKey kwG "I" = true ∧ Kwargs.hasKey kwG "R" = true ∧
    (grdlandmask envOK kwG).2 ≠ Outcome.ret Option.none ∧
    (grdlandmask envOK kwG).2 =
      Outcome.ret (some { path := "pygmt-tmp.nc", loaded := true }) := by
  decide

/-- C2 amended: for a validated call whose external calls succeed, the
return value is decided by comparing the effective outgrid value with the
temporary-file name: the loaded DataArray is returned when they are equal,
which holds in particular whenever outgrid was not set, and None is
returned otherwise, in particular whenever outgrid was set to any value
other than the temporary-file name, None included. -/
theorem grdlandmask_return_value (env : Env) (kw : Kwargs) (da : DataArray)
    (hI : Kwargs.hasKey kw "I" = true) (hR : Kwargs.hasKey kw "R" = true)
    (hcall : env.callModule "grdlandmask" (build_arg_string (effKwargs env kw)) =
      Option.none)
    (hopen : env.openDataArray (pyStr (outgridVal env kw)) = Except.ok da) :
    (grdlandmask env kw).2 =
      (if pyEq (outgridVal env kw) env.tmpName then
        Outcome.ret (some { da with loaded := true })
      else Outcome.ret Option.none) ∧
    (Kwargs.hasKey kw "G" = false → pyEq (outgridVal env kw) env.tmpName = true) := by
  constructor
  · rw [grdlandmask_validated env kw hI hR]
    unfold grdlandmaskBody
    cases hc : pyEq (outgridVal env kw) env.tmpName <;>
      simp [hcall, hopen, hc]
  · intro hG
    have hget : Kwargs.get (effKwargs env kw) "G" = some (PyVal.str env.tmpName) := by
      unfold effKwargs
      rw [if_neg (by simp [hG])]
      exact Kwargs.get_updateOne_self kw "G" (PyVal.str env.tmpName)
    unfold outgridVal
    rw [hget]
    simp [pyEq]

theorem grdlandmask_return_value_witness :
    Kwargs.hasKey kwA "I" = true ∧ Kwargs.hasKey kwA "R" = true ∧
    envOK.callModule "grdlandmask" (build_arg_string (effKwargs envOK kwA)) =
      Option.none ∧
    envOK.openDataArray (pyStr (outgridVal envOK kwA)) =
      Except.ok { path := "pygmt-tmp.nc", loaded := false } ∧
    ((grdlandmask envOK kwA).2 =
      (if pyEq (outgridVal envOK kwA) envOK.tmpName then
        Outcome.ret (some { path := "pygmt-tmp.nc", loaded := true })
      else Outcome.ret Option.none) ∧
     (Kwargs.hasKey kwA "G" = false →
       pyEq (outgridVal envOK kwA) envOK.tmpName = true)) :=
  ⟨by decide, by decide, rfl, rfl,
   grdlandmask_return_value envOK kwA { path := "pygmt-tmp.nc", loaded := false }
     (by decide) (by decide) rfl rfl⟩

/-- C9: the output branch is decided by string equality with the
temporary-file name, not by presence of the key "G": a user-supplied
outgrid equal to the temporary-file name yields a DataArray, while an
outgrid bound to None skips the temp-file default and yields None. -/
theorem grdlandmask_branch_by_string_eq (env : Env) (kw kw2 : Kwargs)
    (da : DataArray)
    (hI : Kwargs.hasKey kw "I" = true) (hR : Kwargs.hasKey kw "R" = true)
    (hG : Kwargs.get kw "G" = some (PyVal.str env.tmpName))
    (hcall : env.callModule "grdlandmask" (build_arg_string (effKwargs env kw)) =
      Option.none)
    (hopen : env.openDataArray (pyStr (outgridVal env kw)) = Except.ok da)
    (hI2 : Kwargs.hasKey kw2 "I" = true) (hR2 : Kwargs.hasKey kw2 "R" = true)
    (hG2 : Kwargs.get kw2 "G" = some PyVal.none)
    (hcall2 : env.callModule "grdlandmask" (build_arg_string (effKwargs env kw2)) =
      Option.none) :
    (grdlandmask env kw).2 = Outcome.ret (some { da with loaded := true }) ∧
    effKwargs env kw2 = kw2 ∧
    (grdlandmask env kw2).2 = Outcome.ret Option.none := by
  have heff : effKwargs env kw = kw := by
    unfold effKwargs
    rw [if_pos]
    unfold Kwargs.hasKey
    rw [hG]
    rfl
  have hout : outgridVal env kw = PyVal.str env.tmpName := by
    unfold outgridVal
    rw [heff, hG]
    rfl
  have heff2 : effKwargs env kw2 = kw2 := by
    unfold effKwargs
    rw [if_pos]
    unfold Kwargs.hasKey
    rw [hG2]
    rfl
  have hout2 : outgridVal env kw2 = PyVal.none := by
    unfold outgridVal
    rw [heff2, hG2]
    rfl
  rw [hout] at hopen
  simp only [pyStr] at hopen
  refine ⟨?_, heff2, ?_⟩
  · rw [grdlandmask_validated env kw hI hR]
    unfold grdlandmaskBody
    simp [hcall, hout, pyEq, pyStr, hopen]
  · rw [grdlandmask_validated env kw2 hI2 hR2]
    unfold grdlandmaskBody
    simp [hcall2, hout2, pyEq]

theorem grdlandmask_branch_by_string_eq_witness :
    Kwargs.hasKey kwG "I" = true ∧ Kwargs.hasKey kwG "R" = true ∧
    Kwargs.get kwG "G" = some (PyVal.str envOK.tmpName) ∧
    Kwargs.hasKey kwGNone "I" = true ∧ Kwargs.hasKey kwGNone "R" = true ∧
    Kwargs.get kwGNone "G" = some PyVal.none ∧
    ((grdlandmask envOK kwG).2 =
      Outcome.ret (some { path := "pygmt-tmp.nc", loaded := true }) ∧
     effKwargs envOK kwGNone = kwGNone ∧
     (grdlandmask envOK kwGNone).2 = Outcome.ret Option.none) :=
  ⟨by decide, by decide, by decide, by decide, by decide, by decide,
   grdlandmask_branch_by_string_eq envOK kwG kwGNone
     { path := "pygmt-tmp.nc", loaded := false }
     (by decide) (by decide) (by decide) rfl rfl
     (by decide) (by decide) (by decide) rfl⟩

/-- C10: whenever grdlandmask returns a DataArray, that array has been
loaded into memory and the trace opens, loads and closes the grid file
strictly before the temporary file is released. -/
theorem grdlandmask_loads_before_release (env : Env) (kw : Kwargs)
    (da : DataArray)
    (h : (grdlandmask env kw).2 = Outcome.ret (some da)) :
    da.loaded = true ∧
    ∃ pre p, (grdlandmask env kw).1 =
      pre ++ [Event.openGrid p, Event.loadGrid p, Event.closeGrid p,
              Event.releaseTemp env.tmpName] := by
  unfold grdlandmask at h ⊢
  split at h
  · simp at h
  · rename_i hval
    rw [if_neg hval]
    unfold grdlandmaskBody at h ⊢
    split at h
    · simp at h
    · rename_i hcall
      split at h
      · rename_i hcond
        split at h
        · simp at h
        · rename_i da0 hopen
          simp only [Outcome.ret.injEq, Option.some.injEq] at h
          subst h
          refine ⟨rfl,
            ⟨[Event.acquireTemp env.tmpName, Event.openSession,
              Event.callModule "grdlandmask" (build_arg_string (effKwargs env kw)),
              Event.closeSession], pyStr (outgridVal env kw), ?_⟩⟩
          simp [hcall, hcond, hopen]
      · simp at h

theorem grdlandmask_loads_before_release_witness :
    (grdlandmask envOK kwA).2 =
      Outcome.ret (some { path := "pygmt-tmp.nc", loaded := true }) ∧
    (({ path := "pygmt-tmp.nc", loaded := true } : DataArray).loaded = true ∧
     ∃ pre p, (grdlandmask envOK kwA).1 =
       pre ++ [Event.openGrid p, Event.loadGrid p, Event.closeGrid p,
               Event.releaseTemp envOK.tmpName]) :=
  ⟨by decide,
   grdlandmask_loads_before_release envOK kwA
     { path := "pygmt-tmp.nc", loaded := true } (by decide)⟩

end PyGMT
